import Mathlib

/-!
# Bouncing label (`src/main.c`)

A shallow embedding of the two entry points of `main.c`:

* `eventHandler`, the init entry point, which loads the font and registers the
  frame callback;
* `update`, the frame callback, which draws the label, moves it and flips the
  velocity at the screen edges.

The C globals `font`, `x`, `y`, `dx`, `dy` become the record `State`, threaded
through both functions.  Calls through the `PlaydateAPI` function tables are
recorded, in program order, as a list of `HostCall`.  The C type `int` is a
32-bit two's-complement integer: every arithmetic result is passed through
`wrapInt`.
-/

set_option linter.unusedVariables false

namespace Bounce

/-! ## Machine integers and pointers -/

/-- Smallest value of the C type `int` (32 bits). -/
def INT_MIN : Int := -2147483648

/-- Largest value of the C type `int` (32 bits). -/
def INT_MAX : Int := 2147483647

/-- Reduction of a mathematical integer to the 32-bit two's-complement range. -/
def wrapInt (z : Int) : Int := (z + 2147483648) % 4294967296 - 2147483648

/-- A value is representable in the C type `int`. -/
def InIntRange (z : Int) : Prop := INT_MIN ≤ z ∧ z ≤ INT_MAX

instance (z : Int) : Decidable (InIntRange z) := by
  unfold InIntRange; infer_instance

/-- Addresses; `NULL` is address zero. -/
abbrev Ptr := Nat

/-- The null pointer. -/
def NULL : Ptr := 0

/-! ## Declarations taken from `pd_api.h` -/

/-- Modelled from the spec: the macro `LCD_COLUMNS` of `pd_api.h`, which is not part of
the sources; the spec gives the screen width as 400 (`screen_width - text_width = 200`). -/
def LCD_COLUMNS : Int := 400

/-- Modelled from the spec: the macro `LCD_ROWS` of `pd_api.h`, which is not part of the
sources; the spec gives the screen height as 240 (`y0 = (240-16)/2`). -/
def LCD_ROWS : Int := 240

/-- Values of the enumeration type `PDSystemEvent` (a C `enum`, i.e. an integer code). -/
abbrev PDSystemEvent := Int

/-- Declarations that `main.c` uses but does not define: three enumerators of `pd_api.h`
(which is not part of the sources) and the expansion of `__FILE__`.  Their values are not
fixed by the sources, so the entry points take them as a parameter. -/
structure PdDecls where
  /-- the "initialize" event code -/
  kEventInit : PDSystemEvent
  /-- the background colour passed to `clear` -/
  kColorWhite : Int
  /-- the text encoding passed to `drawText` -/
  kASCIIEncoding : Int
  /-- expansion of `__FILE__` -/
  file : String

/-- The host side of `PlaydateAPI* pd`: the address of the table and the one host
function whose result the program reads.  `loadFont path` gives the returned font pointer
and the string left in the out-parameter `err`. -/
structure PlaydateAPI where
  addr : Ptr
  loadFont : String → Ptr × String

/-- Functions of this program that can be registered as a callback. -/
inductive Callback where
  | update
  deriving DecidableEq, Repr

/-- One call made through the `PlaydateAPI` function tables, with its arguments. -/
inductive HostCall where
  | loadFont (path : String)
  | error (fmt : String) (file : String) (line : Int) (path : String) (err : String)
  | setUpdateCallback (cb : Callback) (userdata : Ptr)
  | clear (color : Int)
  | setFont (font : Ptr)
  | drawText (text : String) (len : Nat) (encoding : Int) (x y : Int)
  | drawFPS (x y : Int)
  deriving DecidableEq, Repr

/-- Recogniser of fatal-error reports (`pd->system->error`). -/
def HostCall.isError : HostCall → Bool
  | .error _ _ _ _ _ => true
  | _ => false

/-- Recogniser of frame-callback registrations (`pd->system->setUpdateCallback`). -/
def HostCall.isSetUpdateCallback : HostCall → Bool
  | .setUpdateCallback _ _ => true
  | _ => false

/-! ## Globals -/

/-- The global `fontpath`. -/
def fontpath : String := "/System/Fonts/Asheville-Sans-14-Bold.pft"

/-- The macro `TEXT_WIDTH`. -/
def TEXT_WIDTH : Int := 200

/-- The macro `TEXT_HEIGHT`. -/
def TEXT_HEIGHT : Int := 16

/-- The mutable globals of `main.c`. -/
structure State where
  font : Ptr
  x : Int
  y : Int
  dx : Int
  dy : Int
  deriving DecidableEq, Repr

/-- The globals as initialised at program start:
`font = NULL`, `x = (400 - TEXT_WIDTH) / 2`, `y = (240 - TEXT_HEIGHT) / 2`, `dx = 1`,
`dy = 2`.  The division is C integer division (truncating). -/
def initialState : State :=
  { font := NULL
    x := Int.tdiv (400 - TEXT_WIDTH) 2
    y := Int.tdiv (240 - TEXT_HEIGHT) 2
    dx := 1
    dy := 2 }

/-- What a call of an entry point yields: the returned `int`, the globals afterwards and
the host calls made, in order. -/
structure Outcome where
  ret : Int
  state : State
  calls : List HostCall
  deriving DecidableEq, Repr

/-! ## The entry points -/

/-- The function `eventHandler(pd, event, arg)`.  On `kEventInit` it loads the font into
the global `font`, reports an error when the result is `NULL`, and then registers `update`
with `pd` as user data; the error call is the `if` body, the registration follows the `if`.
`pd->system->error` is an ordinary call of type `void`: control continues after it.
`__LINE__` at the error call is 27. -/
def eventHandler (D : PdDecls) (pd : PlaydateAPI) (s : State) (event : PDSystemEvent)
    (arg : Nat) : Outcome :=
  if event = D.kEventInit then
    let r := pd.loadFont fontpath
    let font := r.1
    let err := r.2
    let s1 := { s with font := font }
    let c1 := [HostCall.loadFont fontpath]
    let c2 :=
      if font = NULL then
        c1 ++ [HostCall.error "%s:%i Couldn\x27t load font %s: %s" D.file 27 fontpath err]
      else c1
    let c3 := c2 ++ [HostCall.setUpdateCallback Callback.update pd.addr]
    { ret := 0, state := s1, calls := c3 }
  else
    { ret := 0, state := s, calls := [] }

/-- The function `update(userdata)`.  The host calls go through `pd = userdata`.  The text
is drawn at the position held on entry; then the position is advanced and each velocity
component is negated when the advanced coordinate is out of its bound. -/
def update (D : PdDecls) (s : State) (userdata : Ptr) : Outcome :=
  let text := "My Playdate Game!"
  let c1 := [HostCall.clear D.kColorWhite, HostCall.setFont s.font,
    HostCall.drawText text text.utf8ByteSize D.kASCIIEncoding s.x s.y]
  let x := wrapInt (s.x + s.dx)
  let y := wrapInt (s.y + s.dy)
  let dx := if x < 0 ∨ x > LCD_COLUMNS - TEXT_WIDTH then wrapInt (-s.dx) else s.dx
  let dy := if y < 0 ∨ y > LCD_ROWS - TEXT_HEIGHT then wrapInt (-s.dy) else s.dy
  { ret := 1
    state := { s with x := x, y := y, dx := dx, dy := dy }
    calls := c1 ++ [HostCall.drawFPS 0 0] }

/-- The globals after `n` consecutive frames: the host calls `update` once per frame and
the globals persist between calls. -/
def frames (D : PdDecls) (userdata : Ptr) : Nat → State → State
  | 0, s => s
  | n + 1, s => (update D (frames D userdata n s) userdata).state

/-- An arbitrary instance of the header constants, for evaluating the program. -/
def sampleDecls : PdDecls :=
  { kEventInit := 0, kColorWhite := 1, kASCIIEncoding := 0, file := "main.c" }

/-- A host whose `loadFont` fails. -/
def failingHost : PlaydateAPI :=
  { addr := 4096, loadFont := fun _ => (NULL, "file not found") }

/-- A host whose `loadFont` succeeds with the font at address 512. -/
def workingHost : PlaydateAPI :=
  { addr := 4096, loadFont := fun _ => (512, "") }

/-- A state one step inside the right and bottom bounds, moving outwards. -/
def edgeState : State := { font := 512, x := 200, y := 224, dx := 1, dy := 2 }

/-- The frame's arithmetic stays within `int`: both sums are representable, and so is
each negation that the frame performs. -/
def NoOverflow (s : State) : Prop :=
  InIntRange (s.x + s.dx) ∧ InIntRange (s.y + s.dy) ∧
  ((s.x + s.dx < 0 ∨ s.x + s.dx > LCD_COLUMNS - TEXT_WIDTH) → InIntRange (-s.dx)) ∧
  ((s.y + s.dy < 0 ∨ s.y + s.dy > LCD_ROWS - TEXT_HEIGHT) → InIntRange (-s.dy))

instance (s : State) : Decidable (NoOverflow s) := by
  unfold NoOverflow; infer_instance

/-- The states the label moves through when started from `initialState`: horizontally it
moves by one pixel between 0 and 200 with an overshoot to -1 or 201 on the frame of the
flip, vertically by two pixels between 0 and 224 with an overshoot to -2 or 226. -/
def Bouncing (s : State) : Prop :=
  ((s.dx = 1 ∧ -1 ≤ s.x ∧ s.x ≤ 200) ∨ (s.dx = -1 ∧ 0 ≤ s.x ∧ s.x ≤ 201)) ∧
  ((s.dy = 2 ∧ -2 ≤ s.y ∧ s.y ≤ 224) ∨ (s.dy = -2 ∧ 0 ≤ s.y ∧ s.y ≤ 226)) ∧
  s.y % 2 = 0

/-! ## Basic facts -/

theorem wrapInt_of_inIntRange {z : Int} (h : InIntRange z) : wrapInt z = z := by
  unfold InIntRange INT_MIN INT_MAX at h
  unfold wrapInt
  omega

theorem wrapInt_inIntRange (z : Int) : InIntRange (wrapInt z) := by
  unfold InIntRange INT_MIN INT_MAX wrapInt
  omega

@[simp] theorem update_font (D : PdDecls) (s : State) (u : Ptr) :
    (update D s u).state.font = s.font := rfl

@[simp] theorem update_x (D : PdDecls) (s : State) (u : Ptr) :
    (update D s u).state.x = wrapInt (s.x + s.dx) := rfl

@[simp] theorem update_y (D : PdDecls) (s : State) (u : Ptr) :
    (update D s u).state.y = wrapInt (s.y + s.dy) := rfl

theorem update_dx (D : PdDecls) (s : State) (u : Ptr) :
    (update D s u).state.dx =
      if wrapInt (s.x + s.dx) < 0 ∨ wrapInt (s.x + s.dx) > 200 then wrapInt (-s.dx)
      else s.dx := rfl

theorem update_dy (D : PdDecls) (s : State) (u : Ptr) :
    (update D s u).state.dy =
      if wrapInt (s.y + s.dy) < 0 ∨ wrapInt (s.y + s.dy) > 224 then wrapInt (-s.dy)
      else s.dy := rfl

theorem bouncing_initial (f : Ptr) : Bouncing { initialState with font := f } := by
  have hx : initialState.x = 100 := by decide
  have hy : initialState.y = 112 := by decide
  have hdx : initialState.dx = 1 := rfl
  have hdy : initialState.dy = 2 := rfl
  simp only [Bouncing, hx, hy, hdx, hdy]
  decide

theorem bouncing_update (D : PdDecls) (s : State) (u : Ptr) (h : Bouncing s) :
    Bouncing (update D s u).state := by
  unfold Bouncing at h ⊢
  rw [update_dx, update_dy, update_x, update_y]
  unfold wrapInt
  obtain ⟨hx, hy, hp⟩ := h
  split_ifs <;> omega

theorem bouncing_frames (D : PdDecls) (u : Ptr) (f : Ptr) (n : Nat) :
    Bouncing (frames D u n { initialState with font := f }) := by
  induction n with
  | zero => exact bouncing_initial f
  | succ k ih => exact bouncing_update D _ u ih

/-! ## The init entry point -/

/-- C7: for every event code other than `kEventInit` and every argument word,
`eventHandler` makes no host call, leaves the font handle, the position and the velocity
unchanged and returns 0; for `kEventInit` it returns 0 as well. -/
theorem eventHandler_other_event_noop (D : PdDecls) (pd : PlaydateAPI) (s : State)
    (event : PDSystemEvent) (arg : Nat) (h : event ≠ D.kEventInit) :
    (eventHandler D pd s event arg).calls = [] ∧
    (eventHandler D pd s event arg).state = s ∧
    (eventHandler D pd s event arg).ret = 0 ∧
    (eventHandler D pd s D.kEventInit arg).ret = 0 := by
  refine ⟨?_, ?_, ?_, ?_⟩ <;> simp [eventHandler, h]

theorem eventHandler_other_event_noop_witness :
    (9 : PDSystemEvent) ≠ sampleDecls.kEventInit ∧
    ((eventHandler sampleDecls workingHost edgeState 9 7).calls = [] ∧
    (eventHandler sampleDecls workingHost edgeState 9 7).state = edgeState ∧
    (eventHandler sampleDecls workingHost edgeState 9 7).ret = 0 ∧
    (eventHandler sampleDecls workingHost edgeState sampleDecls.kEventInit 7).ret = 0) :=
  ⟨by decide, eventHandler_other_event_noop sampleDecls workingHost edgeState 9 7 (by decide)⟩

/-- C8: when `eventHandler` is called with `kEventInit` and `loadFont` returns a non-NULL
font, that font is stored in the global `font`, no error is reported, `update` is
registered as the frame callback exactly once, with `pd` as its context argument, and the
result is 0. -/
theorem eventHandler_init_success (D : PdDecls) (pd : PlaydateAPI) (s : State) (arg : Nat)
    (h : (pd.loadFont fontpath).1 ≠ NULL) :
    (eventHandler D pd s D.kEventInit arg).state.font = (pd.loadFont fontpath).1 ∧
    (eventHandler D pd s D.kEventInit arg).calls =
      [HostCall.loadFont fontpath, HostCall.setUpdateCallback Callback.update pd.addr] ∧
    (eventHandler D pd s D.kEventInit arg).calls.countP HostCall.isError = 0 ∧
    (eventHandler D pd s D.kEventInit arg).calls.countP HostCall.isSetUpdateCallback = 1 ∧
    (eventHandler D pd s D.kEventInit arg).ret = 0 := by
  have hc : (eventHandler D pd s D.kEventInit arg).calls =
      [HostCall.loadFont fontpath, HostCall.setUpdateCallback Callback.update pd.addr] := by
    simp [eventHandler, h]
  refine ⟨?_, hc, ?_, ?_, ?_⟩
  · simp [eventHandler]
  · rw [hc]; rfl
  · rw [hc]; rfl
  · simp [eventHandler]

theorem eventHandler_init_success_witness :
    (workingHost.loadFont fontpath).1 ≠ NULL ∧
    ((eventHandler sampleDecls workingHost initialState sampleDecls.kEventInit 0).state.font
      = (workingHost.loadFont fontpath).1 ∧
    (eventHandler sampleDecls workingHost initialState sampleDecls.kEventInit 0).calls =
      [HostCall.loadFont fontpath,
        HostCall.setUpdateCallback Callback.update workingHost.addr] ∧
    (eventHandler sampleDecls workingHost initialState sampleDecls.kEventInit 0).calls.countP
      HostCall.isError = 0 ∧
    (eventHandler sampleDecls workingHost initialState sampleDecls.kEventInit 0).calls.countP
      HostCall.isSetUpdateCallback = 1 ∧
    (eventHandler sampleDecls workingHost initialState sampleDecls.kEventInit 0).ret = 0) :=
  ⟨by decide,
    eventHandler_init_success sampleDecls workingHost initialState 0 (by decide)⟩

/-- C2, as stated, fails: it is not the case that on every font-load failure the host
calls contain exactly one error report and no registration of the frame callback. -/
theorem font_failure_registration_counterexample :
    ¬ ∀ (D : PdDecls) (pd : PlaydateAPI) (s : State) (arg : Nat),
      (pd.loadFont fontpath).1 = NULL →
        (eventHandler D pd s D.kEventInit arg).calls.countP HostCall.isError = 1 ∧
        (eventHandler D pd s D.kEventInit arg).calls.countP
          HostCall.isSetUpdateCallback = 0 := by
  intro h
  have h1 := (h sampleDecls failingHost initialState 0 rfl).2
  revert h1
  decide

/-- C2, amended: when `eventHandler` is called with `kEventInit` and `loadFont` returns
NULL, the host calls are, in order, the font load, exactly one error report (format, file,
line 27, font path, host error detail) and then one registration of `update` with `pd`:
the registration is not skipped.  The result is 0. -/
theorem eventHandler_init_font_failure (D : PdDecls) (pd : PlaydateAPI) (s : State)
    (arg : Nat) (h : (pd.loadFont fontpath).1 = NULL) :
    (eventHandler D pd s D.kEventInit arg).calls =
      [HostCall.loadFont fontpath,
        HostCall.error "%s:%i Couldn\x27t load font %s: %s" D.file 27 fontpath
          (pd.loadFont fontpath).2,
        HostCall.setUpdateCallback Callback.update pd.addr] ∧
    (eventHandler D pd s D.kEventInit arg).calls.countP HostCall.isError = 1 ∧
    (eventHandler D pd s D.kEventInit arg).calls.countP HostCall.isSetUpdateCallback = 1 ∧
    (eventHandler D pd s D.kEventInit arg).ret = 0 := by
  have hc : (eventHandler D pd s D.kEventInit arg).calls =
      [HostCall.loadFont fontpath,
        HostCall.error "%s:%i Couldn\x27t load font %s: %s" D.file 27 fontpath
          (pd.loadFont fontpath).2,
        HostCall.setUpdateCallback Callback.update pd.addr] := by
    simp [eventHandler, h]
  refine ⟨hc, ?_, ?_, ?_⟩
  · rw [hc]; rfl
  · rw [hc]; rfl
  · simp [eventHandler]

theorem eventHandler_init_font_failure_witness :
    (failingHost.loadFont fontpath).1 = NULL ∧
    ((eventHandler sampleDecls failingHost initialState sampleDecls.kEventInit 0).calls =
      [HostCall.loadFont fontpath,
        HostCall.error "%s:%i Couldn\x27t load font %s: %s" sampleDecls.file 27 fontpath
          (failingHost.loadFont fontpath).2,
        HostCall.setUpdateCallback Callback.update failingHost.addr] ∧
    (eventHandler sampleDecls failingHost initialState sampleDecls.kEventInit 0).calls.countP
      HostCall.isError = 1 ∧
    (eventHandler sampleDecls failingHost initialState sampleDecls.kEventInit 0).calls.countP
      HostCall.isSetUpdateCallback = 1 ∧
    (eventHandler sampleDecls failingHost initialState sampleDecls.kEventInit 0).ret = 0) :=
  ⟨rfl, eventHandler_init_font_failure sampleDecls failingHost initialState 0 rfl⟩

/-! ## The frame entry point: one call -/

/-- C9: `update` returns the non-zero "continue" value 1 on every invocation, for every
state, whether or not a velocity component is flipped in that frame. -/
theorem update_returns_continue (D : PdDecls) (s : State) (userdata : Ptr) :
    (update D s userdata).ret = 1 ∧ (update D s userdata).ret ≠ 0 := by
  constructor
  · rfl
  · show (1 : Int) ≠ 0
    decide

/-- C6: for every state in which no `int` overflow occurs, one call of `update` sets the
position to `(x + dx, y + dy)`, with the velocity held before the call.  The program starts
at `x = 100`, `y = 112`, `dx = 1`, `dy = 2`, and after one frame the position is
`(101, 114)` with the velocity still `(1, 2)`. -/
theorem update_moves_by_old_velocity (D : PdDecls) (s : State) (userdata : Ptr)
    (h : NoOverflow s) :
    ((update D s userdata).state.x = s.x + s.dx ∧
      (update D s userdata).state.y = s.y + s.dy) ∧
    (initialState.x = 100 ∧ initialState.y = 112 ∧
      initialState.dx = 1 ∧ initialState.dy = 2) ∧
    ((update D initialState userdata).state.x = 101 ∧
      (update D initialState userdata).state.y = 114 ∧
      (update D initialState userdata).state.dx = 1 ∧
      (update D initialState userdata).state.dy = 2) := by
  obtain ⟨hx, hy, -, -⟩ := h
  refine ⟨⟨?_, ?_⟩, ?_, ?_⟩
  · rw [update_x, wrapInt_of_inIntRange hx]
  · rw [update_y, wrapInt_of_inIntRange hy]
  · decide
  · rw [update_x, update_y, update_dx, update_dy]
    decide

theorem update_moves_by_old_velocity_witness :
    NoOverflow edgeState ∧
    (((update sampleDecls edgeState 4096).state.x = edgeState.x + edgeState.dx ∧
      (update sampleDecls edgeState 4096).state.y = edgeState.y + edgeState.dy) ∧
    (initialState.x = 100 ∧ initialState.y = 112 ∧
      initialState.dx = 1 ∧ initialState.dy = 2) ∧
    ((update sampleDecls initialState 4096).state.x = 101 ∧
      (update sampleDecls initialState 4096).state.y = 114 ∧
      (update sampleDecls initialState 4096).state.dx = 1 ∧
      (update sampleDecls initialState 4096).state.dy = 2)) :=
  ⟨by decide, update_moves_by_old_velocity sampleDecls edgeState 4096 (by decide)⟩

/-- C1: for every state in which no `int` overflow occurs, one call of `update` makes the
new `dx` equal to `-dx` when `x + dx < 0` or `x + dx > 400 - 200`, and equal to `dx`
otherwise; independently the new `dy` equals `-dy` when `y + dy < 0` or
`y + dy > 240 - 16`, and `dy` otherwise. -/
theorem update_flips_iff_out_of_bound (D : PdDecls) (s : State) (userdata : Ptr)
    (h : NoOverflow s) :
    (update D s userdata).state.dx =
      (if s.x + s.dx < 0 ∨ s.x + s.dx > 400 - 200 then -s.dx else s.dx) ∧
    (update D s userdata).state.dy =
      (if s.y + s.dy < 0 ∨ s.y + s.dy > 240 - 16 then -s.dy else s.dy) := by
  obtain ⟨hx, hy, hnx, hny⟩ := h
  rw [update_dx, update_dy, wrapInt_of_inIntRange hx, wrapInt_of_inIntRange hy]
  have e1 : LCD_COLUMNS - TEXT_WIDTH = 200 := by decide
  have e2 : LCD_ROWS - TEXT_HEIGHT = 224 := by decide
  rw [e1] at hnx
  rw [e2] at hny
  have e3 : (400 : Int) - 200 = 200 := by decide
  have e4 : (240 : Int) - 16 = 224 := by decide
  rw [e3, e4]
  constructor
  · by_cases c : s.x + s.dx < 0 ∨ s.x + s.dx > 200
    · rw [if_pos c, if_pos c, wrapInt_of_inIntRange (hnx c)]
    · rw [if_neg c, if_neg c]
  · by_cases c : s.y + s.dy < 0 ∨ s.y + s.dy > 224
    · rw [if_pos c, if_pos c, wrapInt_of_inIntRange (hny c)]
    · rw [if_neg c, if_neg c]

theorem update_flips_iff_out_of_bound_witness :
    NoOverflow edgeState ∧
    ((update sampleDecls edgeState 4096).state.dx =
      (if edgeState.x + edgeState.dx < 0 ∨ edgeState.x + edgeState.dx > 400 - 200
        then -edgeState.dx else edgeState.dx) ∧
    (update sampleDecls edgeState 4096).state.dy =
      (if edgeState.y + edgeState.dy < 0 ∨ edgeState.y + edgeState.dy > 240 - 16
        then -edgeState.dy else edgeState.dy)) :=
  ⟨by decide, update_flips_iff_out_of_bound sampleDecls edgeState 4096 (by decide)⟩

/-- C5: from `x = 199`, `dx = 1` one call of `update` gives `x = 200` with `dx` still 1 and
a second call gives `x = 201` with `dx = -1`.  For every state, a post-move `x` of exactly
200 or exactly 0 leaves `dx` unchanged, and a post-move `x` of 201 or -1 replaces `dx` by
its C negation, which is `-dx` whenever `-dx` is representable. -/
theorem update_right_edge_timing (D : PdDecls) (userdata : Ptr) :
    (∀ (f : Ptr) (y dy : Int),
      (update D ⟨f, 199, y, 1, dy⟩ userdata).state.x = 200 ∧
      (update D ⟨f, 199, y, 1, dy⟩ userdata).state.dx = 1 ∧
      (update D (update D ⟨f, 199, y, 1, dy⟩ userdata).state userdata).state.x = 201 ∧
      (update D (update D ⟨f, 199, y, 1, dy⟩ userdata).state userdata).state.dx = -1) ∧
    (∀ s : State,
      (update D s userdata).state.x = 200 ∨ (update D s userdata).state.x = 0 →
        (update D s userdata).state.dx = s.dx) ∧
    (∀ s : State,
      (update D s userdata).state.x = 201 ∨ (update D s userdata).state.x = -1 →
        (update D s userdata).state.dx = wrapInt (-s.dx) ∧
        (InIntRange (-s.dx) → (update D s userdata).state.dx = -s.dx)) := by
  refine ⟨?_, ?_, ?_⟩
  · intro f y dy
    have w200 : wrapInt (199 + 1) = 200 := by decide
    have w201 : wrapInt (200 + 1) = 201 := by decide
    have wneg : wrapInt (-1) = -1 := by decide
    have h1 : (update D ⟨f, 199, y, 1, dy⟩ userdata).state.x = 200 := by
      rw [update_x]; exact w200
    have h2 : (update D ⟨f, 199, y, 1, dy⟩ userdata).state.dx = 1 := by
      rw [update_dx]
      show (if wrapInt (199 + 1) < 0 ∨ wrapInt (199 + 1) > 200 then wrapInt (-1) else 1) = 1
      rw [w200]; decide
    refine ⟨h1, h2, ?_, ?_⟩
    · rw [update_x, h1, h2]; exact w201
    · rw [update_dx, h1, h2, w201, wneg]; decide
  · intro s h
    rw [update_x] at h
    rw [update_dx]
    rcases h with h | h <;> rw [h] <;> exact if_neg (by decide)
  · intro s h
    rw [update_x] at h
    have e : (update D s userdata).state.dx = wrapInt (-s.dx) := by
      rw [update_dx]
      rcases h with h | h <;> rw [h] <;> exact if_pos (by decide)
    exact ⟨e, fun hr => by rw [e, wrapInt_of_inIntRange hr]⟩

theorem update_right_edge_timing_witness :
    ((update sampleDecls edgeState 4096).state.x = 201 ∨
      (update sampleDecls edgeState 4096).state.x = -1) ∧
    ((update sampleDecls edgeState 4096).state.dx = wrapInt (-edgeState.dx) ∧
      (InIntRange (-edgeState.dx) →
        (update sampleDecls edgeState 4096).state.dx = -edgeState.dx)) :=
  ⟨by decide, (update_right_edge_timing sampleDecls 4096).2.2 edgeState (by decide)⟩

/-! ## The frame entry point: runs of frames -/

/-- C3: for every number of frames `n ≥ 1`, after `n` calls of `update` from the initial
position and velocity (whatever font was loaded) the label's box `[x, x+200) × [y, y+16)`
meets the display `[0, 400) × [0, 240)`: `x < 400`, `x + 200 > 0`, `y < 240` and
`y + 16 > 0`. -/
theorem label_meets_display (D : PdDecls) (userdata : Ptr) (f : Ptr) (n : Nat)
    (h : 1 ≤ n) :
    (frames D userdata n { initialState with font := f }).x < 400 ∧
    (frames D userdata n { initialState with font := f }).x + 200 > 0 ∧
    (frames D userdata n { initialState with font := f }).y < 240 ∧
    (frames D userdata n { initialState with font := f }).y + 16 > 0 := by
  obtain ⟨hx, hy, -⟩ := bouncing_frames D userdata f n
  omega

set_option maxRecDepth 100000 in
theorem label_meets_display_witness :
    1 ≤ 101 ∧
    ((frames sampleDecls 4096 101 { initialState with font := 512 }).x < 400 ∧
    (frames sampleDecls 4096 101 { initialState with font := 512 }).x + 200 > 0 ∧
    (frames sampleDecls 4096 101 { initialState with font := 512 }).y < 240 ∧
    (frames sampleDecls 4096 101 { initialState with font := 512 }).y + 16 > 0) :=
  ⟨by decide, label_meets_display sampleDecls 4096 512 101 (by decide)⟩

/-- C4: in every state reached from the initial position and velocity by any number of
calls of `update`, an `x` outside `[0, 200]` is outside by at most `|dx|` and the `x` after
the next frame is inside `[0, 200]`; a `y` outside `[0, 224]` is outside by at most `|dy|`
and the `y` after the next frame is inside `[0, 224]`. -/
theorem overshoot_one_frame (D : PdDecls) (userdata : Ptr) (f : Ptr) (n : Nat) :
    ((frames D userdata n { initialState with font := f }).x < 0 →
      0 - (frames D userdata n { initialState with font := f }).x
          ≤ |(frames D userdata n { initialState with font := f }).dx| ∧
      0 ≤ (frames D userdata (n + 1) { initialState with font := f }).x ∧
      (frames D userdata (n + 1) { initialState with font := f }).x ≤ 200) ∧
    (200 < (frames D userdata n { initialState with font := f }).x →
      (frames D userdata n { initialState with font := f }).x - 200
          ≤ |(frames D userdata n { initialState with font := f }).dx| ∧
      0 ≤ (frames D userdata (n + 1) { initialState with font := f }).x ∧
      (frames D userdata (n + 1) { initialState with font := f }).x ≤ 200) ∧
    ((frames D userdata n { initialState with font := f }).y < 0 →
      0 - (frames D userdata n { initialState with font := f }).y
          ≤ |(frames D userdata n { initialState with font := f }).dy| ∧
      0 ≤ (frames D userdata (n + 1) { initialState with font := f }).y ∧
      (frames D userdata (n + 1) { initialState with font := f }).y ≤ 224) ∧
    (224 < (frames D userdata n { initialState with font := f }).y →
      (frames D userdata n { initialState with font := f }).y - 224
          ≤ |(frames D userdata n { initialState with font := f }).dy| ∧
      0 ≤ (frames D userdata (n + 1) { initialState with font := f }).y ∧
      (frames D userdata (n + 1) { initialState with font := f }).y ≤ 224) := by
  obtain ⟨hx, hy, hp⟩ := bouncing_frames D userdata f n
  have ex : (frames D userdata (n + 1) { initialState with font := f }).x =
      wrapInt ((frames D userdata n { initialState with font := f }).x +
        (frames D userdata n { initialState with font := f }).dx) := rfl
  have ey : (frames D userdata (n + 1) { initialState with font := f }).y =
      wrapInt ((frames D userdata n { initialState with font := f }).y +
        (frames D userdata n { initialState with font := f }).dy) := rfl
  rw [ex, ey]
  generalize frames D userdata n { initialState with font := f } = s at hx hy hp ⊢
  have a1 : |(1 : Int)| = 1 := by decide
  have a2 : |(-1 : Int)| = 1 := by decide
  have a3 : |(2 : Int)| = 2 := by decide
  have a4 : |(-2 : Int)| = 2 := by decide
  unfold wrapInt
  refine ⟨?_, ?_, ?_, ?_⟩
  · intro hlt
    rcases hx with ⟨e, h1, h2⟩ | ⟨e, h1, h2⟩
    · rw [e, a1]; omega
    · omega
  · intro hgt
    rcases hx with ⟨e, h1, h2⟩ | ⟨e, h1, h2⟩
    · omega
    · rw [e, a2]; omega
  · intro hlt
    rcases hy with ⟨e, h1, h2⟩ | ⟨e, h1, h2⟩
    · rw [e, a3]; omega
    · omega
  · intro hgt
    rcases hy with ⟨e, h1, h2⟩ | ⟨e, h1, h2⟩
    · omega
    · rw [e, a4]; omega

set_option maxRecDepth 100000 in
theorem overshoot_one_frame_witness :
    200 < (frames sampleDecls 4096 101 { initialState with font := 512 }).x ∧
    ((frames sampleDecls 4096 101 { initialState with font := 512 }).x - 200
        ≤ |(frames sampleDecls 4096 101 { initialState with font := 512 }).dx| ∧
      0 ≤ (frames sampleDecls 4096 (101 + 1) { initialState with font := 512 }).x ∧
      (frames sampleDecls 4096 (101 + 1) { initialState with font := 512 }).x ≤ 200) :=
  ⟨by decide, (overshoot_one_frame sampleDecls 4096 512 101).2.1 (by decide)⟩

/-- C10: the state `x = 300`, `dx = 1` is never reached from the initial state, and from
it every call of `update` negates `dx`, `x` alternates between 300 and 301
(301, 300, 301, ... after 1, 2, 3, ... frames) and is outside `[0, 200]` after any number
of frames. -/
theorem far_state_never_returns (D : PdDecls) (userdata : Ptr) (f : Ptr) (y dy : Int)
    (n : Nat) :
    (frames D userdata n ⟨f, 300, y, 1, dy⟩).x = (if n % 2 = 0 then 300 else 301) ∧
    (frames D userdata n ⟨f, 300, y, 1, dy⟩).dx = (if n % 2 = 0 then 1 else -1) ∧
    (frames D userdata (n + 1) ⟨f, 300, y, 1, dy⟩).dx
      = -(frames D userdata n ⟨f, 300, y, 1, dy⟩).dx ∧
    ¬ (0 ≤ (frames D userdata n ⟨f, 300, y, 1, dy⟩).x ∧
        (frames D userdata n ⟨f, 300, y, 1, dy⟩).x ≤ 200) ∧
    (∀ (m : Nat) (g : Ptr),
      frames D userdata m { initialState with font := g } ≠ ⟨f, 300, y, 1, dy⟩) := by
  have key : ∀ k : Nat,
      (frames D userdata k ⟨f, 300, y, 1, dy⟩).x = (if k % 2 = 0 then 300 else 301) ∧
      (frames D userdata k ⟨f, 300, y, 1, dy⟩).dx = (if k % 2 = 0 then 1 else -1) := by
    intro k
    induction k with
    | zero => exact ⟨rfl, rfl⟩
    | succ j ih =>
      obtain ⟨ihx, ihd⟩ := ih
      have ex : (frames D userdata (j + 1) ⟨f, 300, y, 1, dy⟩).x =
          wrapInt ((frames D userdata j ⟨f, 300, y, 1, dy⟩).x +
            (frames D userdata j ⟨f, 300, y, 1, dy⟩).dx) := rfl
      have ed : (frames D userdata (j + 1) ⟨f, 300, y, 1, dy⟩).dx =
          (update D (frames D userdata j ⟨f, 300, y, 1, dy⟩) userdata).state.dx := rfl
      rw [ex, ed, update_dx, ihx, ihd]
      unfold wrapInt
      by_cases c : j % 2 = 0
      · have c1 : ¬ (j + 1) % 2 = 0 := by omega
        rw [if_pos c, if_pos c, if_neg c1, if_neg c1]
        decide
      · have c1 : (j + 1) % 2 = 0 := by omega
        rw [if_neg c, if_neg c, if_pos c1, if_pos c1]
        decide
  obtain ⟨hx, hd⟩ := key n
  obtain ⟨-, hd1⟩ := key (n + 1)
  refine ⟨hx, hd, ?_, ?_, ?_⟩
  · rw [hd1, hd]
    by_cases c : n % 2 = 0
    · have c1 : ¬ (n + 1) % 2 = 0 := by omega
      rw [if_pos c, if_neg c1]
    · have c1 : (n + 1) % 2 = 0 := by omega
      rw [if_neg c, if_pos c1]
      decide
  · rw [hx]
    by_cases c : n % 2 = 0
    · rw [if_pos c]; decide
    · rw [if_neg c]; decide
  · intro m g e
    obtain ⟨bx, -, -⟩ := bouncing_frames D userdata g m
    rw [e] at bx
    have e300 : (State.mk f 300 y 1 dy).x = 300 := rfl
    rw [e300] at bx
    omega

end Bounce
